import Mathlib

/-!
Shallow embedding of the Namma_DVK web application (src/app.py): the
booking-intake flow, the best-effort notifiers, per-sector listing
retrieval and deletion, the two authentication scopes, and session
logout. Database tables are modelled as Lean lists, the session as a
record of optional keys, request forms as records of optional strings
(a missing form field is `none`), and each external collaborator call
as an explicit `Except` outcome passed in as a parameter. Flash
messages are `(text, category)` pairs; redirects are endpoint names.
-/

namespace NammaDVK

/-- The `SECTORS` list of `(key, display_name)` pairs from app.py. -/
def SECTORS : List (String × String) :=
  [ ("hotel", "Hotel"),
    ("event_management", "Event Management"),
    ("construction", "Construction"),
    ("hospital", "Hospital"),
    ("medical", "Medical"),
    ("electrical_shop", "Electrical Shop"),
    ("mechanical_workshop", "Mechanical Workshop"),
    ("car_bike_accessories", "Car & Bike Accessories"),
    ("beauty_parlor", "Beauty Parlor"),
    ("departmental_store", "Departmental Store") ]

/-- `SECTOR_TABLES = {key: f"sector_{key}" for key, _ in SECTORS}`. -/
def SECTOR_TABLES : List (String × String) :=
  SECTORS.map (fun p => (p.1, "sector_" ++ p.1))

/-- Membership test `sector_key in SECTOR_TABLES` on the dict's keys. -/
def knownSector (k : String) : Bool :=
  SECTOR_TABLES.any (fun p => p.1 == k)

/-- Whitespace characters removed by Python's `str.strip()`. -/
def isSpaceChar (c : Char) : Bool :=
  c == ' ' || c == '\t' || c == '\n' || c == '\r' || c == '\x0b' || c == '\x0c'

/-- Python's `str.strip()`: drop leading and trailing whitespace. -/
def pyStrip (s : String) : String :=
  ⟨((s.data.dropWhile isSpaceChar).reverse.dropWhile isSpaceChar).reverse⟩

/-- Python truthiness of an optional string: `None` and `""` are falsy. -/
def pyFalsy : Option String → Bool
  | none => true
  | some s => s == ""

/-- Python `s or None` for a string `s`: `None` when `s` is empty. -/
def strOrNone (s : String) : Option String :=
  if s == "" then none else some s

/-- Python `a or b` on two optional strings (used for `email or mobile`). -/
def pyOr (a b : Option String) : Option String :=
  if pyFalsy a then b else a

/-- A row of the `bookings` table. -/
structure Booking where
  name : String
  mobile : String
  address : String
  sector_key : String
  latitude : Option String
  longitude : Option String
  geo_address : Option String
  created_at : Nat
  deriving Repr, DecidableEq

/-- The POST form of the `/book` route; a field absent from the request
is `none`. -/
structure BookForm where
  name : Option String
  mobile : Option String
  address : Option String
  sector : Option String
  latitude : Option String
  longitude : Option String
  geo_address : Option String
  deriving Repr, DecidableEq

/-- Observable effects of the `book` handler, in program order. -/
inductive BookEvent where
  | insertBooking (b : Booking)
  | commit
  | callSheet
  | callNotify
  deriving Repr, DecidableEq

/-- Result of the `book` handler: the bookings table after the request,
the effect trace, the flash messages in order, and the redirect target. -/
structure BookResult where
  db : List Booking
  events : List BookEvent
  flashes : List (String × String)
  redirect : String
  deriving Repr, DecidableEq

/-- The booking row inserted by `book` for a validated form, with the
server-assigned timestamp `now` (`datetime.utcnow()`). -/
def bookingOf (form : BookForm) (now : Nat) : Booking :=
  { name := pyStrip (form.name.getD "")
    mobile := pyStrip (form.mobile.getD "")
    address := pyStrip (form.address.getD "")
    sector_key := pyStrip (form.sector.getD "")
    latitude := form.latitude
    longitude := form.longitude
    geo_address := strOrNone (pyStrip (form.geo_address.getD ""))
    created_at := now }

/-- The POST branch of the `book` route (app.py lines 220-277). The
outcomes of the two notifier calls are passed in as `sheet_ok` and
`notify_ok`; the handler consults them only for flash messages. -/
def book (form : BookForm) (db : List Booking) (now : Nat)
    (sheet_ok notify_ok : Bool) : BookResult :=
  let name := pyStrip (form.name.getD "")
  let mobile := pyStrip (form.mobile.getD "")
  let address := pyStrip (form.address.getD "")
  let sector_key := pyStrip (form.sector.getD "")
  if name == "" || mobile == "" || address == "" || !knownSector sector_key then
    { db := db, events := []
      flashes := [("Please fill all fields.", "error")], redirect := "book" }
  else if pyFalsy form.latitude || pyFalsy form.longitude then
    { db := db, events := []
      flashes := [("Live location is required. Please allow location access.", "error")]
      redirect := "book" }
  else
    let b := bookingOf form now
    let sheetFlash :=
      if sheet_ok then ("Booking saved to Google Sheet.", "success")
      else ("Booking saved locally (Google Sheet not configured).", "warning")
    let notifyFlash :=
      if notify_ok then ("Notification sent.", "success")
      else ("Notification not sent (email/SMS not configured).", "warning")
    { db := db ++ [b]
      events := [.insertBooking b, .commit, .callSheet, .callNotify]
      flashes := [sheetFlash, notifyFlash]
      redirect := "book" }

/-! ### Notifiers (app.py lines 483-614)

Each notifier reads its configuration from the environment and, when
fully configured, performs one external call whose outcome (success or
a raised exception with a message) is modelled as an `Except String
Unit` parameter. Each notifier returns the boolean result together
with a flag recording whether the external call was attempted. -/

/-- Environment values read by `write_to_google_sheet`. -/
structure SheetEnv where
  creds_path : Option String
  sheet_id : Option String
  deriving Repr, DecidableEq

/-- Environment values read by `send_email_notification`. -/
structure EmailEnv where
  smtp_host : Option String
  smtp_port : Option String
  smtp_user : Option String
  smtp_pass : Option String
  smtp_from : Option String
  notify_email : Option String
  deriving Repr, DecidableEq

/-- Environment values read by `send_sms_notification`. -/
structure SmsEnv where
  account_sid : Option String
  auth_token : Option String
  from_number : Option String
  notify_mobile : Option String
  deriving Repr, DecidableEq

/-- `all([...])` over the six email configuration values. -/
def emailConfigured (e : EmailEnv) : Bool :=
  !pyFalsy e.smtp_host && !pyFalsy e.smtp_port && !pyFalsy e.smtp_user &&
    !pyFalsy e.smtp_pass && !pyFalsy e.smtp_from && !pyFalsy e.notify_email

/-- `all([...])` over the four SMS configuration values. -/
def smsConfigured (s : SmsEnv) : Bool :=
  !pyFalsy s.account_sid && !pyFalsy s.auth_token &&
    !pyFalsy s.from_number && !pyFalsy s.notify_mobile

/-- `write_to_google_sheet`: returns `False` without connecting when
either configuration value is falsy; otherwise attempts the append and
converts any raised exception to `False`. Second component: whether
the external call was attempted. -/
def write_to_google_sheet (g : SheetEnv) (call : Except String Unit) :
    Bool × Bool :=
  if pyFalsy g.creds_path || pyFalsy g.sheet_id then (false, false)
  else
    match call with
    | .ok _ => (true, true)
    | .error _ => (false, true)

/-- `send_email_notification`: returns `False` without connecting when
`not all([...])`; otherwise attempts the SMTP send and converts any
raised exception to `False`. Second component: whether the external
call was attempted. -/
def send_email_notification (e : EmailEnv) (call : Except String Unit) :
    Bool × Bool :=
  if !emailConfigured e then (false, false)
  else
    match call with
    | .ok _ => (true, true)
    | .error _ => (false, true)

/-- `send_sms_notification`: returns `False` without connecting when
`not all([...])`; otherwise attempts the Twilio call and converts any
raised exception to `False`. Second component: whether the external
call was attempted. -/
def send_sms_notification (s : SmsEnv) (call : Except String Unit) :
    Bool × Bool :=
  if !smsConfigured s then (false, false)
  else
    match call with
    | .ok _ => (true, true)
    | .error _ => (false, true)

/-- `send_notifications`: `email_sent or sms_sent` (app.py lines
522-533). Both sub-notifiers are invoked unconditionally. -/
def send_notifications (e : EmailEnv) (s : SmsEnv)
    (emailCall smsCall : Except String Unit) : Bool :=
  (send_email_notification e emailCall).1 || (send_sms_notification s smsCall).1

/-! ### Sessions, authentication, logout (app.py lines 142-217, 312-345) -/

/-- The Flask session, restricted to the keys the app uses. -/
structure Session where
  user_id : Option Nat
  user_identifier : Option String
  admin_id : Option Nat
  admin_identifier : Option String
  deriving Repr, DecidableEq

/-- The empty session (after `session.clear()`). -/
def Session.empty : Session := ⟨none, none, none, none⟩

/-- Python truthiness of `session.get("admin_id")`. -/
def pyTruthyNat : Option Nat → Bool
  | none => false
  | some n => n != 0

/-- A row of the `users` (or `admins`) table. -/
structure User where
  id : Nat
  email : Option String
  mobile : Option String
  password_hash : String
  deriving Repr, DecidableEq

/-- `SELECT * FROM t WHERE email = %s OR mobile = %s` followed by
`fetchone()`: first row whose email or mobile equals the identifier
(SQL `NULL = x` never matches). -/
def findUser (users : List User) (ident : String) : Option User :=
  users.find? (fun u => u.email == some ident || u.mobile == some ident)

/-- Outcome of a login POST: flash, redirect target and the session
after the request. -/
structure LoginOutcome where
  flash : String × String
  redirect : String
  newSession : Session
  deriving Repr, DecidableEq

/-- The POST branch of `/login` (app.py lines 153-182). `checkHash
hash password` models `check_password_hash`. -/
def login (sess : Session) (checkHash : String → String → Bool)
    (users : List User) (identifier0 password0 : String) : LoginOutcome :=
  let identifier := pyStrip identifier0
  let password := pyStrip password0
  if identifier == "" || password == "" then
    ⟨("Please enter email/mobile and password.", "error"), "login", sess⟩
  else
    match findUser users identifier with
    | none => ⟨("Invalid credentials.", "error"), "login", sess⟩
    | some u =>
      if checkHash u.password_hash password then
        ⟨("Logged in successfully.", "success"), "index",
          { sess with user_id := some u.id
                      user_identifier := pyOr u.email u.mobile }⟩
      else ⟨("Invalid credentials.", "error"), "login", sess⟩

/-- The POST branch of `/admin/login` (app.py lines 312-337); unlike
`/login` it has no empty-field check. -/
def admin_login (sess : Session) (checkHash : String → String → Bool)
    (admins : List User) (identifier0 password0 : String) : LoginOutcome :=
  let identifier := pyStrip identifier0
  let password := pyStrip password0
  match findUser admins identifier with
  | none => ⟨("Invalid admin credentials.", "error"), "admin_login", sess⟩
  | some a =>
    if checkHash a.password_hash password then
      ⟨("Admin logged in.", "success"), "admin_dashboard",
        { sess with admin_id := some a.id
                    admin_identifier := pyOr a.email a.mobile }⟩
    else ⟨("Invalid admin credentials.", "error"), "admin_login", sess⟩

/-- `/logout` (app.py lines 213-217): `session.clear()`. -/
def logout (_sess : Session) : Session × (String × String) × String :=
  (Session.empty, ("Logged out.", "success"), "index")

/-- `/admin/logout` (app.py lines 340-345): pops only the two admin
keys. -/
def admin_logout (sess : Session) : Session × (String × String) × String :=
  ({ sess with admin_id := none, admin_identifier := none },
    ("Admin logged out.", "success"), "index")

/-! ### Listings (app.py lines 280-295, 348-371, 461-480)

A sector table is a `List Listing`; the whole catalog is a function
from sector key to that sector's table. The query `SELECT * FROM t
ORDER BY rating DESC, name ASC` is modelled as sorting the table by
the relation `listingOrder`. Ratings are `DECIMAL(2,1)` values,
modelled in tenths as integers. -/

/-- A row of a per-sector listing table. -/
structure Listing where
  id : Nat
  name : String
  description : Option String
  rating : Int
  contact : Option String
  address : Option String
  deriving Repr, DecidableEq

/-- Lexicographic less-or-equal on character sequences, the model of
SQL's ascending string comparison. -/
def strLeb : List Char → List Char → Bool
  | [], _ => true
  | _ :: _, [] => false
  | a :: as, b :: bs =>
    if a.toNat < b.toNat then true
    else if b.toNat < a.toNat then false
    else strLeb as bs

/-- Ascending comparison of listing names (`name ASC`). -/
def nameLe (s t : String) : Bool :=
  strLeb s.data t.data

theorem strLeb_total : ∀ as bs, strLeb as bs = true ∨ strLeb bs as = true
  | [], _ => Or.inl rfl
  | _ :: _, [] => Or.inr rfl
  | a :: as, b :: bs => by
    rcases Nat.lt_trichotomy a.toNat b.toNat with h | h | h
    · exact Or.inl (by simp [strLeb, h])
    · have hab : ¬a.toNat < b.toNat := by omega
      have hba : ¬b.toNat < a.toNat := by omega
      rcases strLeb_total as bs with ih | ih
      · exact Or.inl (by simp [strLeb, hab, hba, ih])
      · exact Or.inr (by simp [strLeb, hab, hba, ih])
    · exact Or.inr (by simp [strLeb, h])

theorem strLeb_trans : ∀ as bs cs, strLeb as bs = true → strLeb bs cs = true →
    strLeb as cs = true
  | [], _, _, _, _ => rfl
  | _ :: _, [], _, h₁, _ => by simp [strLeb] at h₁
  | _ :: _, _ :: _, [], _, h₂ => by simp [strLeb] at h₂
  | a :: as, b :: bs, c :: cs, h₁, h₂ => by
    simp only [strLeb] at h₁ h₂ ⊢
    rcases Nat.lt_trichotomy a.toNat b.toNat with hab | hab | hab
    · rcases Nat.lt_trichotomy b.toNat c.toNat with hbc | hbc | hbc
      · have hac : a.toNat < c.toNat := by omega
        simp [hac]
      · have hac : a.toNat < c.toNat := by omega
        simp [hac]
      · have hn : ¬b.toNat < c.toNat := by omega
        simp [hn, hbc] at h₂
    · rcases Nat.lt_trichotomy b.toNat c.toNat with hbc | hbc | hbc
      · have hac : a.toNat < c.toNat := by omega
        simp [hac]
      · have hn1 : ¬a.toNat < b.toNat := by omega
        have hn2 : ¬b.toNat < a.toNat := by omega
        have hn3 : ¬b.toNat < c.toNat := by omega
        have hn4 : ¬c.toNat < b.toNat := by omega
        have hn5 : ¬a.toNat < c.toNat := by omega
        have hn6 : ¬c.toNat < a.toNat := by omega
        simp only [hn1, hn2, if_false] at h₁
        simp only [hn3, hn4, if_false] at h₂
        simp [hn5, hn6, strLeb_trans as bs cs h₁ h₂]
      · have hn : ¬b.toNat < c.toNat := by omega
        simp [hn, hbc] at h₂
    · have hn : ¬a.toNat < b.toNat := by omega
      simp [hn, hab] at h₁

/-- The `ORDER BY rating DESC, name ASC` order: higher rating first,
ties broken by name ascending. -/
def listingOrder (a b : Listing) : Prop :=
  b.rating < a.rating ∨ (a.rating = b.rating ∧ nameLe a.name b.name = true)

instance : DecidableRel listingOrder := fun a b =>
  inferInstanceAs
    (Decidable (b.rating < a.rating ∨
      (a.rating = b.rating ∧ nameLe a.name b.name = true)))

instance : IsTotal Listing listingOrder where
  total a b := by
    unfold listingOrder
    rcases lt_trichotomy a.rating b.rating with h | h | h
    · exact Or.inr (Or.inl h)
    · rcases strLeb_total a.name.data b.name.data with hn | hn
      · exact Or.inl (Or.inr ⟨h, hn⟩)
      · exact Or.inr (Or.inr ⟨h.symm, hn⟩)
    · exact Or.inl (Or.inl h)

instance : IsTrans Listing listingOrder where
  trans a b c hab hbc := by
    unfold listingOrder at *
    rcases hab with h₁ | ⟨e₁, n₁⟩
    · rcases hbc with h₂ | ⟨e₂, _⟩
      · exact Or.inl (h₂.trans h₁)
      · exact Or.inl (e₂ ▸ h₁)
    · rcases hbc with h₂ | ⟨e₂, n₂⟩
      · exact Or.inl (e₁ ▸ h₂)
      · exact Or.inr ⟨e₁.trans e₂, strLeb_trans _ _ _ n₁ n₂⟩

/-- The rows returned by `SELECT * FROM t ORDER BY rating DESC, name
ASC`. -/
def fetchSorted (rows : List Listing) : List Listing :=
  rows.insertionSort listingOrder

/-- Result of the public `/sector/<sector_key>` route. -/
inductive SectorResult where
  | redirectIndex (flash : String × String)
  | render (sector_name : String) (rows : List Listing)
  deriving Repr, DecidableEq

/-- `dict(SECTORS)[sector_key]`: display name of a known sector. -/
def sectorDisplayName (k : String) : String :=
  ((SECTORS.find? (fun p => p.1 == k)).getD ("", "")).2

/-- The `/sector/<sector_key>` route (app.py lines 280-295). `tables`
maps each sector key to that sector's table contents. -/
def sector (sector_key : String) (tables : String → List Listing) :
    SectorResult :=
  if !knownSector sector_key then
    .redirectIndex ("Unknown sector.", "error")
  else
    .render (sectorDisplayName sector_key) (fetchSorted (tables sector_key))

/-- Result of the `/admin` dashboard route. -/
inductive DashResult where
  | redirectAdminLogin
  | render (active_sector : String) (rows : List Listing)
  deriving Repr, DecidableEq

/-- `SECTORS[0][0]`, the default sector key. -/
def defaultSectorKey : String := ((SECTORS.headD ("", "")).1)

/-- The `/admin` dashboard route (app.py lines 348-371): admin guard,
then `request.args.get("sector", SECTORS[0][0])` with fallback to the
first sector when the key is unknown. -/
def admin_dashboard (sess : Session) (sectorParam : Option String)
    (tables : String → List Listing) : DashResult :=
  if !pyTruthyNat sess.admin_id then .redirectAdminLogin
  else
    let k0 := sectorParam.getD defaultSectorKey
    let k := if knownSector k0 then k0 else defaultSectorKey
    .render k (fetchSorted (tables k))

/-- Result of the admin delete route: the sector table after the
request, the flash, and the redirect target. -/
inductive DeleteResult where
  | redirectAdminLogin
  | unknownSector (flash : String × String) (redirect : String)
  | done (table : List Listing) (flash : String × String) (redirect : String)
  deriving Repr, DecidableEq

/-- `DELETE FROM t WHERE id = %s` on a table modelled as a list. -/
def deleteRows (table : List Listing) (listing_id : Nat) : List Listing :=
  table.filter (fun l => l.id != listing_id)

/-- Rows affected by `DELETE FROM t WHERE id = %s`. -/
def deleteAffected (table : List Listing) (listing_id : Nat) : Nat :=
  table.countP (fun l => l.id == listing_id)

/-- The `/admin/sector/<sector_key>/delete/<listing_id>` route (app.py
lines 461-480): admin guard, sector check, then an unconditional
delete-commit-flash-redirect. -/
def admin_delete_listing (sess : Session) (sector_key : String)
    (listing_id : Nat) (table : List Listing) : DeleteResult :=
  if !pyTruthyNat sess.admin_id then .redirectAdminLogin
  else if !knownSector sector_key then
    .unknownSector ("Unknown sector.", "error") "admin_dashboard"
  else
    .done (deleteRows table listing_id) ("Listing deleted.", "success")
      "admin_dashboard"

/-! ### Theorems -/

/-- C1: for every booking submission with non-empty trimmed
name/mobile/address, a known sector key, and both coordinates present,
`book` appends exactly one row carrying the submitted field values and
the server-assigned timestamp, the insert and commit precede both
notifier invocations in the effect trace, and the resulting table is
the same for every combination of notifier outcomes. -/
theorem book_valid_inserts_once_before_notifiers
    (form : BookForm) (db : List Booking) (now : Nat)
    (hn : ((pyStrip (form.name.getD "")) == "") = false)
    (hm : ((pyStrip (form.mobile.getD "")) == "") = false)
    (ha : ((pyStrip (form.address.getD "")) == "") = false)
    (hs : knownSector (pyStrip (form.sector.getD "")) = true)
    (hlat : pyFalsy form.latitude = false)
    (hlng : pyFalsy form.longitude = false) :
    ∀ sheet_ok notify_ok : Bool,
      (book form db now sheet_ok notify_ok).db = db ++ [bookingOf form now] ∧
      (book form db now sheet_ok notify_ok).events =
        [.insertBooking (bookingOf form now), .commit, .callSheet, .callNotify] ∧
      (bookingOf form now).created_at = now := by
  intro sheet_ok notify_ok
  refine ⟨?_, ?_, rfl⟩ <;> simp [book, hn, hm, ha, hs, hlat, hlng]

/-- Concrete instantiation of `book_valid_inserts_once_before_notifiers`. -/
def formValid : BookForm :=
  ⟨some "Asha", some "9876543210", some "Main Road", some "hotel",
    some "12.91", some "75.30", none⟩

/-- Witness for C1 at a concrete valid submission. -/
theorem book_valid_inserts_once_before_notifiers_witness :
    (book formValid [] 5 false true).db = [] ++ [bookingOf formValid 5] ∧
    (book formValid [] 5 false true).events =
      [.insertBooking (bookingOf formValid 5), .commit, .callSheet, .callNotify] ∧
    (bookingOf formValid 5).created_at = 5 :=
  book_valid_inserts_once_before_notifiers formValid [] 5
    (by decide) (by decide) (by decide) (by decide) (by decide) (by decide)
    false true

/-- A submission missing both its name and both coordinates. -/
def formNoNameNoCoords : BookForm :=
  ⟨none, some "9876543210", some "Main Road", some "hotel", none, none, none⟩

/-- C2 counterexample: a submission with missing coordinates (and a
missing name) persists zero rows but returns the generic
fill-all-fields advisory, not the location-required advisory. -/
theorem book_missing_coords_counterexample :
    (book formNoNameNoCoords [] 0 false false).db = [] ∧
    (book formNoNameNoCoords [] 0 false false).flashes =
      [("Please fill all fields.", "error")] ∧
    ("Please fill all fields.", "error") ≠
      ("Live location is required. Please allow location access.", "error") := by
  refine ⟨rfl, rfl, by decide⟩

/-- C2 (amended): a submission missing either coordinate persists zero
rows and performs no insert; when the remaining required fields are
valid and the sector is known it returns the location-required
advisory, and when they are not it returns the generic fill-all-fields
advisory. -/
theorem book_missing_coords_rejected
    (form : BookForm) (db : List Booking) (now : Nat) (sheet_ok notify_ok : Bool)
    (hcoord : (pyFalsy form.latitude || pyFalsy form.longitude) = true) :
    (book form db now sheet_ok notify_ok).db = db ∧
    (book form db now sheet_ok notify_ok).events = [] ∧
    (((pyStrip (form.name.getD "")) == "") = false →
      ((pyStrip (form.mobile.getD "")) == "") = false →
      ((pyStrip (form.address.getD "")) == "") = false →
      knownSector (pyStrip (form.sector.getD "")) = true →
      (book form db now sheet_ok notify_ok).flashes =
        [("Live location is required. Please allow location access.", "error")]) ∧
    (((pyStrip (form.name.getD "")) == ""
        || ((pyStrip (form.mobile.getD "")) == "")
        || ((pyStrip (form.address.getD "")) == "")
        || !knownSector (pyStrip (form.sector.getD ""))) = true →
      (book form db now sheet_ok notify_ok).flashes =
        [("Please fill all fields.", "error")]) := by
  by_cases hfields :
      (((pyStrip (form.name.getD "")) == "")
        || ((pyStrip (form.mobile.getD "")) == "")
        || ((pyStrip (form.address.getD "")) == "")
        || !knownSector (pyStrip (form.sector.getD ""))) = true
  · refine ⟨?_, ?_, ?_, ?_⟩
    · simp [book, hfields]
    · simp [book, hfields]
    · intro h₁ h₂ h₃ h₄
      rw [h₁, h₂, h₃, h₄] at hfields
      simp at hfields
    · intro _
      simp [book, hfields]
  · have hfields' := Bool.of_not_eq_true hfields
    refine ⟨?_, ?_, ?_, ?_⟩
    · simp [book, hfields', hcoord]
    · simp [book, hfields', hcoord]
    · intro _ _ _ _
      simp [book, hfields', hcoord]
    · intro hbad
      rw [hbad] at hfields'
      exact absurd hfields' (by decide)

/-- A submission with valid fields but missing coordinates. -/
def formValidNoCoords : BookForm :=
  ⟨some "Asha", some "9876543210", some "Main Road", some "hotel",
    none, some "", none⟩

/-- Witness for C2 (amended) at a concrete submission. -/
theorem book_missing_coords_rejected_witness :
    (book formValidNoCoords [] 0 true true).db = [] ∧
    (book formValidNoCoords [] 0 true true).flashes =
      [("Live location is required. Please allow location access.", "error")] := by
  have h := book_missing_coords_rejected formValidNoCoords [] 0 true true (by decide)
  exact ⟨h.1, h.2.2.1 (by decide) (by decide) (by decide) (by decide)⟩

/-- A submission with valid fields but an unknown sector key. -/
def formUnknownSector : BookForm :=
  ⟨some "Asha", some "9876543210", some "Main Road", some "restaurant",
    some "12.91", some "75.30", none⟩

/-- A submission with every required field missing. -/
def formAllBlank : BookForm :=
  ⟨none, none, none, none, some "12.91", some "75.30", none⟩

/-- C3 counterexample: an unknown sector key yields exactly the generic
fill-all-fields advisory — the same flash as an all-blank submission —
so the unknown-sector advisory is not distinct from the generic
missing-fields message. -/
theorem book_unknown_sector_counterexample :
    (book formUnknownSector [] 0 false false).db = [] ∧
    (book formUnknownSector [] 0 false false).flashes =
      [("Please fill all fields.", "error")] ∧
    (book formUnknownSector [] 0 false false).flashes =
      (book formAllBlank [] 0 false false).flashes := by
  refine ⟨rfl, rfl, rfl⟩

/-- C3 (amended): a submission whose sector key is unknown persists
zero rows, performs no insert, and returns the generic fill-all-fields
advisory (the same message as for missing fields, not a distinct
unknown-sector advisory). -/
theorem book_unknown_sector_rejected
    (form : BookForm) (db : List Booking) (now : Nat) (sheet_ok notify_ok : Bool)
    (hs : knownSector (pyStrip (form.sector.getD "")) = false) :
    (book form db now sheet_ok notify_ok).db = db ∧
    (book form db now sheet_ok notify_ok).events = [] ∧
    (book form db now sheet_ok notify_ok).flashes =
      [("Please fill all fields.", "error")] ∧
    (book form db now sheet_ok notify_ok).redirect = "book" := by
  refine ⟨?_, ?_, ?_, ?_⟩ <;> simp [book, hs]

/-- Witness for C3 (amended) at a concrete submission. -/
theorem book_unknown_sector_rejected_witness :
    (book formUnknownSector [] 3 true true).db = [] ∧
    (book formUnknownSector [] 3 true true).flashes =
      [("Please fill all fields.", "error")] := by
  have h := book_unknown_sector_rejected formUnknownSector [] 3 true true (by decide)
  exact ⟨h.1, h.2.2.1⟩

/-- C4: `send_notifications` is exactly the boolean OR of the email and
SMS notifiers; each sub-notifier converts a raised exception from its
external call into `false`, so no exception escapes; and when both are
fully configured but both calls raise, `send_notifications` is `false`
while the booking row inserted by `book` remains persisted. -/
theorem send_notifications_or_no_escape
    (e : EmailEnv) (s : SmsEnv) (emailCall smsCall : Except String Unit)
    (msg₁ msg₂ : String) (form : BookForm) (db : List Booking) (now : Nat)
    (sheet_ok : Bool)
    (he : emailConfigured e = true) (hsms : smsConfigured s = true)
    (hn : ((pyStrip (form.name.getD "")) == "") = false)
    (hm : ((pyStrip (form.mobile.getD "")) == "") = false)
    (ha : ((pyStrip (form.address.getD "")) == "") = false)
    (hs : knownSector (pyStrip (form.sector.getD "")) = true)
    (hlat : pyFalsy form.latitude = false)
    (hlng : pyFalsy form.longitude = false) :
    send_notifications e s emailCall smsCall =
      ((send_email_notification e emailCall).1 ||
        (send_sms_notification s smsCall).1) ∧
    (send_email_notification e (Except.error msg₁)).1 = false ∧
    (send_sms_notification s (Except.error msg₂)).1 = false ∧
    send_notifications e s (Except.error msg₁) (Except.error msg₂) = false ∧
    (book form db now sheet_ok
        (send_notifications e s (Except.error msg₁) (Except.error msg₂))).db =
      db ++ [bookingOf form now] := by
  refine ⟨rfl, ?_, ?_, ?_, ?_⟩
  · simp [send_email_notification, he]
  · simp [send_sms_notification, hsms]
  · simp [send_notifications, send_email_notification, send_sms_notification,
      he, hsms]
  · simp [book, hn, hm, ha, hs, hlat, hlng]

/-- A fully configured email environment. -/
def emailEnvFull : EmailEnv :=
  ⟨some "smtp.example.com", some "587", some "user", some "pass",
    some "from@example.com", some "ops@example.com"⟩

/-- A fully configured SMS environment. -/
def smsEnvFull : SmsEnv :=
  ⟨some "AC123", some "token", some "+15550100", some "+15550101"⟩

/-- Witness for C4: both collaborators configured, both calls raise. -/
theorem send_notifications_or_no_escape_witness :
    send_notifications emailEnvFull smsEnvFull
      (Except.error "connection refused") (Except.error "api error") = false ∧
    (book formValid [] 7 true
        (send_notifications emailEnvFull smsEnvFull
          (Except.error "connection refused") (Except.error "api error"))).db =
      [] ++ [bookingOf formValid 7] := by
  have h := send_notifications_or_no_escape emailEnvFull smsEnvFull
    (Except.error "connection refused") (Except.error "api error")
    "connection refused" "api error" formValid [] 7 true
    (by decide) (by decide) (by decide) (by decide) (by decide) (by decide)
    (by decide) (by decide)
  exact ⟨h.2.2.2.1, h.2.2.2.2⟩

/-- C5: a notifier whose required configuration set is incomplete
returns `false` without attempting its external call (the attempted
flag is `false`); and with the spreadsheet collaborator unconfigured,
`book` still persists the booking row and flashes the saved-locally
advisory reporting sheet-write failure as its first message. -/
theorem notifiers_unconfigured_noop
    (g : SheetEnv) (e : EmailEnv) (s : SmsEnv)
    (c₁ c₂ c₃ : Except String Unit)
    (form : BookForm) (db : List Booking) (now : Nat) (notify_ok : Bool)
    (hg : (pyFalsy g.creds_path || pyFalsy g.sheet_id) = true)
    (he : emailConfigured e = false)
    (hsms : smsConfigured s = false)
    (hn : ((pyStrip (form.name.getD "")) == "") = false)
    (hm : ((pyStrip (form.mobile.getD "")) == "") = false)
    (ha : ((pyStrip (form.address.getD "")) == "") = false)
    (hs : knownSector (pyStrip (form.sector.getD "")) = true)
    (hlat : pyFalsy form.latitude = false)
    (hlng : pyFalsy form.longitude = false) :
    write_to_google_sheet g c₁ = (false, false) ∧
    send_email_notification e c₂ = (false, false) ∧
    send_sms_notification s c₃ = (false, false) ∧
    (book form db now (write_to_google_sheet g c₁).1 notify_ok).db =
      db ++ [bookingOf form now] ∧
    (book form db now (write_to_google_sheet g c₁).1 notify_ok).flashes.head? =
      some ("Booking saved locally (Google Sheet not configured).", "warning") := by
  have hw : write_to_google_sheet g c₁ = (false, false) := by
    simp [write_to_google_sheet, hg]
  refine ⟨hw, ?_, ?_, ?_, ?_⟩
  · simp [send_email_notification, he]
  · simp [send_sms_notification, hsms]
  · rw [hw]; simp [book, hn, hm, ha, hs, hlat, hlng]
  · rw [hw]; simp [book, hn, hm, ha, hs, hlat, hlng]

/-- Witness for C5: nothing configured, valid booking submission. -/
theorem notifiers_unconfigured_noop_witness :
    write_to_google_sheet ⟨none, none⟩ (Except.ok ()) = (false, false) ∧
    send_email_notification ⟨none, none, none, none, none, none⟩
      (Except.ok ()) = (false, false) ∧
    send_sms_notification ⟨none, none, none, none⟩ (Except.ok ()) =
      (false, false) ∧
    (book formValid [] 9
        (write_to_google_sheet ⟨none, none⟩ (Except.ok ())).1 false).db =
      [] ++ [bookingOf formValid 9] ∧
    (book formValid [] 9
        (write_to_google_sheet ⟨none, none⟩ (Except.ok ())).1 false).flashes.head? =
      some ("Booking saved locally (Google Sheet not configured).", "warning") :=
  notifiers_unconfigured_noop ⟨none, none⟩ ⟨none, none, none, none, none, none⟩
    ⟨none, none, none, none⟩ (Except.ok ()) (Except.ok ()) (Except.ok ())
    formValid [] 9 false (by decide) (by decide) (by decide) (by decide)
    (by decide) (by decide) (by decide) (by decide) (by decide)

/-- C6: for every known sector key, both the public sector view and the
admin dashboard render the same retrieval `fetchSorted` of that
sector's table; the retrieved rows are sorted by rating descending
with ties broken by name ascending, are a permutation of the stored
rows, and the sort is stable: any two rows already in the correct
relative order in the table keep that order in the output. -/
theorem listing_retrieval_sorted
    (k : String) (tables : String → List Listing) (sess : Session)
    (hk : knownSector k = true)
    (hadmin : pyTruthyNat sess.admin_id = true) :
    sector k tables = .render (sectorDisplayName k) (fetchSorted (tables k)) ∧
    admin_dashboard sess (some k) tables = .render k (fetchSorted (tables k)) ∧
    List.Sorted listingOrder (fetchSorted (tables k)) ∧
    (fetchSorted (tables k)).Perm (tables k) ∧
    (∀ a b : Listing, listingOrder a b → List.Sublist [a, b] (tables k) →
      List.Sublist [a, b] (fetchSorted (tables k))) := by
  refine ⟨?_, ?_, ?_, ?_, ?_⟩
  · simp [sector, hk]
  · simp [admin_dashboard, hadmin, hk]
  · exact List.sorted_insertionSort listingOrder (tables k)
  · exact List.perm_insertionSort listingOrder (tables k)
  · intro a b hab hsub
    exact List.pair_sublist_insertionSort hab hsub

/-- The "Alpha" listing of the spec's ordering example, rating 4.0. -/
def alphaListing : Listing := ⟨1, "Alpha", none, 40, none, none⟩

/-- The "Beta" listing of the spec's ordering example, rating 4.5. -/
def betaListing : Listing := ⟨2, "Beta", none, 45, none, none⟩

/-- The "Gamma" listing of the spec's ordering example, rating 4.0. -/
def gammaListing : Listing := ⟨3, "Gamma", none, 40, none, none⟩

/-- A catalog whose every sector holds the spec's example listings. -/
def exampleTables : String → List Listing :=
  fun _ => [alphaListing, betaListing, gammaListing]

/-- A session holding a logged-in admin. -/
def adminSession : Session := ⟨none, none, some 1, some "admin@example.com"⟩

/-- Witness for C6 on the spec's example: retrieval yields
Beta(4.5), Alpha(4.0), Gamma(4.0). -/
theorem listing_retrieval_sorted_witness :
    sector "hotel" exampleTables =
      .render (sectorDisplayName "hotel") (fetchSorted (exampleTables "hotel")) ∧
    admin_dashboard adminSession (some "hotel") exampleTables =
      .render "hotel" (fetchSorted (exampleTables "hotel")) ∧
    List.Sorted listingOrder (fetchSorted (exampleTables "hotel")) ∧
    fetchSorted (exampleTables "hotel") =
      [betaListing, alphaListing, gammaListing] := by
  have h := listing_retrieval_sorted "hotel" exampleTables adminSession
    (by decide) (by decide)
  exact ⟨h.1, h.2.1, h.2.2.1, by decide⟩

/-- C7: with an admin session and a known sector, the delete route
always reports success with the filtered table; deleting an id absent
from the table changes nothing and affects zero rows; and deleting the
same id twice leaves the same table as deleting it once. -/
theorem delete_listing_idempotent
    (sess : Session) (k : String) (listing_id : Nat) (table : List Listing)
    (hadmin : pyTruthyNat sess.admin_id = true)
    (hk : knownSector k = true) :
    admin_delete_listing sess k listing_id table =
      .done (deleteRows table listing_id) ("Listing deleted.", "success")
        "admin_dashboard" ∧
    ((∀ l ∈ table, l.id ≠ listing_id) →
      deleteRows table listing_id = table ∧
      deleteAffected table listing_id = 0) ∧
    deleteRows (deleteRows table listing_id) listing_id =
      deleteRows table listing_id := by
  refine ⟨?_, ?_, ?_⟩
  · simp [admin_delete_listing, hadmin, hk]
  · intro habs
    constructor
    · apply List.filter_eq_self.mpr
      intro a ha
      simpa using habs a ha
    · apply List.countP_eq_zero.mpr
      intro a ha
      simpa using habs a ha
  · simp [deleteRows, List.filter_filter]

/-- Witness for C7: deleting the absent id 99 from the example table. -/
theorem delete_listing_idempotent_witness :
    admin_delete_listing adminSession "hotel" 99
        [alphaListing, betaListing, gammaListing] =
      .done (deleteRows [alphaListing, betaListing, gammaListing] 99)
        ("Listing deleted.", "success") "admin_dashboard" ∧
    deleteRows [alphaListing, betaListing, gammaListing] 99 =
      [alphaListing, betaListing, gammaListing] ∧
    deleteAffected [alphaListing, betaListing, gammaListing] 99 = 0 ∧
    deleteRows (deleteRows [alphaListing, betaListing, gammaListing] 99) 99 =
      deleteRows [alphaListing, betaListing, gammaListing] 99 := by
  have h := delete_listing_idempotent adminSession "hotel" 99
    [alphaListing, betaListing, gammaListing] (by decide) (by decide)
  have h2 := h.2.1 (by decide)
  exact ⟨h.1, h2.1, h2.2, h.2.2⟩

/-- C8: in each authentication scope, a failing attempt — identifier
matching no account, or identifier matching an account whose password
hash check fails — yields one identical generic invalid-credentials
outcome: the same flash, the same redirect, and an unchanged session,
regardless of which of the two failure modes occurred. -/
theorem login_failure_uniform
    (sess : Session) (checkHash : String → String → Bool)
    (users admins : List User) (identifier password : String) :
    (((pyStrip identifier) == "") = false → ((pyStrip password) == "") = false →
      (findUser users (pyStrip identifier) = none ∨
        (∃ u, findUser users (pyStrip identifier) = some u ∧
          checkHash u.password_hash (pyStrip password) = false)) →
      login sess checkHash users identifier password =
        ⟨("Invalid credentials.", "error"), "login", sess⟩) ∧
    ((findUser admins (pyStrip identifier) = none ∨
        (∃ a, findUser admins (pyStrip identifier) = some a ∧
          checkHash a.password_hash (pyStrip password) = false)) →
      admin_login sess checkHash admins identifier password =
        ⟨("Invalid admin credentials.", "error"), "admin_login", sess⟩) := by
  constructor
  · intro hid hpw hfail
    rcases hfail with hnone | ⟨u, hu, hcheck⟩
    · simp [login, hid, hpw, hnone]
    · simp [login, hid, hpw, hu, hcheck]
  · intro hfail
    rcases hfail with hnone | ⟨a, ha, hcheck⟩
    · simp [admin_login, hnone]
    · simp [admin_login, ha, hcheck]

/-- A one-user table for the C8 witness. -/
def usersTable : List User := [⟨1, some "asha@example.com", none, "h1"⟩]

/-- A one-admin table for the C8 witness. -/
def adminsTable : List User := [⟨1, some "root@example.com", none, "h2"⟩]

/-- A hash check accepting exactly `hash = "h" ++ password`. -/
def checkHashModel (hash password : String) : Bool :=
  hash == "h" ++ password

/-- Witness for C8: a wrong password for a known user and an unknown
admin identifier both hit the generic rejections. -/
theorem login_failure_uniform_witness :
    login ⟨none, none, none, none⟩ checkHashModel usersTable
        "asha@example.com" "wrong" =
      ⟨("Invalid credentials.", "error"), "login", ⟨none, none, none, none⟩⟩ ∧
    admin_login ⟨none, none, none, none⟩ checkHashModel adminsTable
        "asha@example.com" "wrong" =
      ⟨("Invalid admin credentials.", "error"), "admin_login",
        ⟨none, none, none, none⟩⟩ := by
  have h := login_failure_uniform ⟨none, none, none, none⟩ checkHashModel
    usersTable adminsTable "asha@example.com" "wrong"
  refine ⟨h.1 (by decide) (by decide) ?_, h.2 ?_⟩
  · exact Or.inr ⟨⟨1, some "asha@example.com", none, "h1"⟩, by decide, by decide⟩
  · exact Or.inl (by decide)

/-- C9: with an admin session, a dashboard request whose sector query
parameter is missing or names an unknown sector silently renders the
first sector of the enumeration, "hotel": no error and no redirect. -/
theorem admin_dashboard_unknown_sector_fallback
    (sess : Session) (param : Option String)
    (tables : String → List Listing)
    (hadmin : pyTruthyNat sess.admin_id = true)
    (hparam : param = none ∨ ∃ k, param = some k ∧ knownSector k = false) :
    admin_dashboard sess param tables =
      .render "hotel" (fetchSorted (tables "hotel")) := by
  rcases hparam with hnone | ⟨k, hk, hunk⟩
  · subst hnone
    simp only [admin_dashboard, hadmin, Bool.not_true, Bool.false_eq_true,
      if_false, Option.getD_none]
    have hdef : knownSector defaultSectorKey = true := by decide
    rw [hdef]
    rfl
  · subst hk
    simp only [admin_dashboard, hadmin, Bool.not_true, Bool.false_eq_true,
      if_false, Option.getD_some]
    rw [hunk]
    rfl

/-- Witness for C9 at an unknown sector parameter. -/
theorem admin_dashboard_unknown_sector_fallback_witness :
    admin_dashboard adminSession (some "restaurant") exampleTables =
      .render "hotel" (fetchSorted (exampleTables "hotel")) :=
  admin_dashboard_unknown_sector_fallback adminSession (some "restaurant")
    exampleTables (by decide) (Or.inr ⟨"restaurant", rfl, by decide⟩)

/-- C10: customer logout clears the whole session, admin keys included,
while admin logout removes exactly the two admin keys and leaves the
customer keys of the same session untouched. -/
theorem logout_clears_scopes (sess : Session) :
    (logout sess).1 = Session.empty ∧
    (logout sess).1.admin_id = none ∧
    (logout sess).1.admin_identifier = none ∧
    (admin_logout sess).1.admin_id = none ∧
    (admin_logout sess).1.admin_identifier = none ∧
    (admin_logout sess).1.user_id = sess.user_id ∧
    (admin_logout sess).1.user_identifier = sess.user_identifier := by
  exact ⟨rfl, rfl, rfl, rfl, rfl, rfl, rfl⟩

end NammaDVK
